import Mathlib

set_option autoImplicit false

deriving instance DecidableEq for Except

/-
Shallow embedding of the pythonweb-12 contact-management backend: the
authentication service (`src/services/auth_service.py`), user and contact
services (`src/services/user_service.py`, `src/services/contact_service.py`),
their repositories, and the routers that map service outcomes to HTTP errors.
The durable store is modelled as a list of rows with its uniqueness
constraints enforced at insert/commit time; the Redis cache as an
association list with TTLs; JWTs as records of the claims the decoders
inspect, plus a signature-validity flag and expiry instant.
-/

/-- An HTTP error raised by the service layer (FastAPI `HTTPException`):
status code together with the `detail` string the caller observes. -/
structure HTTPError where
  status : Nat
  detail : String
  deriving DecidableEq

/-- User roles (`src/enums/roles.py`). -/
inductive Role where
  | admin
  | user
  deriving DecidableEq

/-- A row of the `users` table (`src/database/models/user_model.py`):
unique `username` and `email` columns, the stored password hash, optional
avatar URL, the `verified` flag (default false) and the role. -/
structure User where
  id : Nat
  username : String
  email : String
  hashed_password : String
  avatar_url : Option String
  verified : Bool
  role : Role
  deriving DecidableEq

/-- A JWT as the decoding functions observe it: the `scope` claim, the
optional `sub` claim, the expiry instant `exp`, and whether the signature
verifies under the service signing key. -/
structure Token where
  scope : String
  sub : Option String
  exp : Nat
  sigOk : Bool
  deriving DecidableEq

/-- Library-level `jose.jwt.decode`: returns the claims payload, or fails
(`JWTError`) when the signature does not verify or the token is expired. -/
def jwtDecode (t : Token) (now : Nat) : Option Token :=
  if t.sigOk && now < t.exp then some t else none

/-- The generic 401 used by `decode_refresh_token` and `get_current_user`. -/
def credentialsError : HTTPError :=
  ⟨401, "Could not validate credentials"⟩

/-- The 401 raised by every decoder when the scope claim is not the one the
decoder expects. -/
def invalidScopeError : HTTPError :=
  ⟨401, "Invalid scope for token"⟩

/-- `AuthService.decode_refresh_token` (auth_service.py 107–137). -/
def decode_refresh_token (t : Token) (now : Nat) : Except HTTPError String :=
  match jwtDecode t now with
  | none => .error credentialsError
  | some p =>
    if p.scope == "refresh_token" then
      match p.sub with
      | none => .error credentialsError
      | some email => .ok email
    else .error invalidScopeError

/-- `AuthService.decode_email_token` (auth_service.py 154–185). -/
def decode_email_token (t : Token) (now : Nat) : Except HTTPError String :=
  match jwtDecode t now with
  | none => .error ⟨422, "Invalid token for email verification"⟩
  | some p =>
    if p.scope == "email_verification" then
      match p.sub with
      | none => .error ⟨401, "Invalid token for email verification"⟩
      | some email => .ok email
    else .error invalidScopeError

/-- `AuthService.decode_password_reset_token` (auth_service.py 274–310). -/
def decode_password_reset_token (t : Token) (now : Nat) : Except HTTPError String :=
  match jwtDecode t now with
  | none => .error ⟨422, "Invalid or expired token for password reset"⟩
  | some p =>
    if p.scope == "password_reset" then
      match p.sub with
      | none => .error ⟨422, "Invalid token: missing subject"⟩
      | some email => .ok email
    else .error invalidScopeError

/-- The token-decoding prefix of `get_current_user` (auth_service.py
350–362): `jwt.decode`, the scope check against `access_token`, and subject
extraction — every failure raises the same `credentials_exception`. -/
def decode_access_token (t : Token) (now : Nat) : Except HTTPError String :=
  match jwtDecode t now with
  | none => .error credentialsError
  | some p =>
    if p.scope != "access_token" then .error credentialsError
    else
      match p.sub with
      | none => .error credentialsError
      | some email => .ok email

/-- `UserRepository.get_user_by_email`: `SELECT` on the unique `email`
column (user_repository.py 51–58). -/
def get_user_by_email (db : List User) (email : String) : Option User :=
  db.find? (fun u => u.email == email)

/-- `UserRepository.get_user_by_username`: `SELECT` on the unique
`username` column (user_repository.py 60–67). -/
def get_user_by_username (db : List User) (username : String) : Option User :=
  db.find? (fun u => u.username == username)

/-- Replace the first row whose `email` matches — the ORM mutation of the
single row `get_user_by_email` found (emails are a unique column). -/
def replace_user_by_email : List User → String → User → List User
  | [], _, _ => []
  | v :: rest, email, u =>
    if v.email == email then u :: rest
    else v :: replace_user_by_email rest email u

/-- `UserRepository.update_password` (user_repository.py 105–123): look the
user up by email; when found, overwrite the stored hash and commit,
returning the updated row; otherwise return `none` and leave the store
unchanged. -/
def update_password (db : List User) (email newHash : String) :
    Option User × List User :=
  match get_user_by_email db email with
  | none => (none, db)
  | some u =>
    let u' := { u with hashed_password := newHash }
    (some u', replace_user_by_email db email u')

/-- Modelled from the spec: `UserService.reset_password` is absent from the
source tree — only its router caller (auth_router.py 114) and its unit test
(tests/unit/services/test_user_service.py 149–164) exist. Per the spec
("hash the new password and persist, replacing the old hash") and the unit
test, it hashes the new password with `AuthService.hash_password` (the
`hash` parameter, the bcrypt scheme abstracted) and persists it via
`UserRepository.update_password`. -/
def userService_reset_password (hash : String → String) (db : List User)
    (email newPassword : String) : Option User × List User :=
  update_password db email (hash newPassword)

/-- `POST /auth/reset-password` (auth_router.py 102–120): decode the
password-reset token, delegate to the service, and answer 404 when the
subject matched no user. -/
def reset_password_endpoint (hash : String → String) (db : List User)
    (token : Token) (newPassword : String) (now : Nat) :
    Except HTTPError String × List User :=
  match decode_password_reset_token token now with
  | .error e => (.error e, db)
  | .ok email =>
    match userService_reset_password hash db email newPassword with
    | (none, db') => (.error ⟨404, "User not found"⟩, db')
    | (some _, db') => (.ok "Your password has been reset successfully.", db')

/-- A failure at the durable store: the distinguishable unique-constraint
violation (`IntegrityError` wrapping `UniqueViolationError`), or any other
store-level failure (`IntegrityError` with another cause, connection loss). -/
inductive DBError where
  | uniqueViolation
  | otherFailure
  deriving DecidableEq

/-- A failure leaving the service layer: an `HTTPException` it raised, or a
store exception it did not catch — the boundary maps the latter to a 500
`Internal` response. -/
inductive ServiceFailure where
  | http (e : HTTPError)
  | uncaughtStore (e : DBError)
  deriving DecidableEq

/-- The HTTP status the boundary reports for a service failure: the raised
`HTTPException` status, or 500 for an exception nobody caught. -/
def failureStatus : ServiceFailure → Nat
  | .http e => e.status
  | .uncaughtStore _ => 500

/-- The body of a signup request (`UserCreate`, user_schema.py). -/
structure UserCreate where
  username : String
  email : String
  password : String
  deriving DecidableEq

/-- `INSERT INTO users`: the store enforces the unique constraints on
`username` and `email` atomically at the serialization point of the insert;
`storeFault` injects a store failure unrelated to the data (the
`IntegrityError`-with-other-cause branch of user_service.py 87–94). -/
def insert_user (db : List User) (u : User) (storeFault : Bool) :
    Except DBError (List User) :=
  if storeFault then .error .otherFailure
  else if db.any (fun v => v.email == u.email || v.username == u.username) then
    .error .uniqueViolation
  else .ok (db ++ [u])

/-- The pre-insert existence check of `UserService.create_user`
(user_service.py 57–62): 409 when a user with the email already exists. -/
def create_user_precheck (db : List User) (body : UserCreate) : Option HTTPError :=
  match get_user_by_email db body.email with
  | some _ => some ⟨409, "User with this email already exists."⟩
  | none => none

/-- The insert half of `UserService.create_user` (user_service.py 64–94):
hash the password, build the row (unverified, role `user`, the best-effort
Gravatar result in `avatar_url`), insert; a unique violation raised by the
store is caught and mapped to 409, any other store failure is re-raised. -/
def create_user_insert (hash : String → String) (avatar_url : Option String)
    (newId : Nat) (db : List User) (body : UserCreate) (storeFault : Bool) :
    Except ServiceFailure (User × List User) :=
  let new_user : User :=
    ⟨newId, body.username, body.email, hash body.password, avatar_url, false, .user⟩
  match insert_user db new_user storeFault with
  | .ok db' => .ok (new_user, db')
  | .error .uniqueViolation =>
    .error (.http ⟨409, "User with this email already exists (race condition)."⟩)
  | .error .otherFailure => .error (.uncaughtStore .otherFailure)

/-- `UserService.create_user` with the race between the pre-check read and
the insert made explicit: the pre-check runs against the snapshot
`precheckDb`, the insert is serialized by the store against `insertDb`. -/
def create_user_raced (hash : String → String) (avatar_url : Option String)
    (newId : Nat) (precheckDb insertDb : List User) (body : UserCreate)
    (storeFault : Bool) : Except ServiceFailure (User × List User) :=
  match create_user_precheck precheckDb body with
  | some e => .error (.http e)
  | none => create_user_insert hash avatar_url newId insertDb body storeFault

/-- `UserService.create_user` (user_service.py 40–94) run without
interference: pre-check and insert observe the same store state. -/
def create_user (hash : String → String) (avatar_url : Option String)
    (newId : Nat) (db : List User) (body : UserCreate) (storeFault : Bool) :
    Except ServiceFailure (User × List User) :=
  create_user_raced hash avatar_url newId db db body storeFault

/-- A calendar date as Python's `datetime.date` (year, month, day). -/
structure PyDate where
  year : Nat
  month : Nat
  day : Nat
  deriving DecidableEq

/-- A row of the `contacts` table (`src/database/models/contact_model.py`):
owner foreign key, names (`String(50)`), nullable email (`String(60)`),
nullable phone (`String(20)`), nullable birthday, under
`UniqueConstraint("user_id", "email")`. -/
structure Contact where
  id : Nat
  user_id : Nat
  first_name : String
  last_name : String
  email : Option String
  phone_number : Option String
  birthday : Option PyDate
  deriving DecidableEq

/-- Column length and nullability constraints of the `contacts` table:
`String(50)` names, nullable `String(60)` email, nullable `String(20)`
phone number. -/
def contact_row_ok (c : Contact) : Bool :=
  c.first_name.length ≤ 50 && c.last_name.length ≤ 50 &&
  (match c.email with | some e => e.length ≤ 60 | none => true) &&
  (match c.phone_number with | some p => p.length ≤ 20 | none => true)

/-- The raw JSON body of a create-contact request, before validation: each
field either supplied or absent. -/
structure RawContactInput where
  first_name : Option String
  last_name : Option String
  email : Option String
  phone_number : Option String
  birthday : Option PyDate
  deriving DecidableEq

/-- `ContactBase` (contact_schema.py 5–12), the validated create-contact
body: `first_name` and `last_name` required with `max_length=50`, `email`
required (`EmailStr`, no default), `phone_number` optional with
`max_length=20`, `birthday` optional. -/
structure ContactBase where
  first_name : String
  last_name : String
  email : String
  phone_number : Option String
  birthday : Option PyDate
  deriving DecidableEq

/-- A Pydantic validation failure (surfaced by the boundary as 422). -/
inductive ValidationIssue where
  | missingField (field : String)
  | tooLong (field : String) (maxLen : Nat)
  | invalidEmail
  deriving DecidableEq

/-- Pydantic validation of `ContactBase` (contact_schema.py 5–12):
`first_name` and `last_name` required, at most 50 characters; `email`
required, checked by `EmailStr` (its syntactic check abstracted as
`emailOk`); `phone_number` optional, at most 20 characters; `birthday`
optional. -/
def validateContactBase (emailOk : String → Bool) (raw : RawContactInput) :
    Except ValidationIssue ContactBase :=
  match raw.first_name with
  | none => .error (.missingField "first_name")
  | some fn =>
    if fn.length > 50 then .error (.tooLong "first_name" 50)
    else
      match raw.last_name with
      | none => .error (.missingField "last_name")
      | some ln =>
        if ln.length > 50 then .error (.tooLong "last_name" 50)
        else
          match raw.email with
          | none => .error (.missingField "email")
          | some em =>
            if !emailOk em then .error .invalidEmail
            else
              match raw.phone_number with
              | some pn =>
                if pn.length > 20 then .error (.tooLong "phone_number" 20)
                else .ok ⟨fn, ln, em, some pn, raw.birthday⟩
              | none => .ok ⟨fn, ln, em, none, raw.birthday⟩

/-- The single quote character, used in the create-contact conflict detail. -/
def singleQuote : String := String.singleton (Char.ofNat 39)

/-- `ContactRepository.get_contact_by_id` (contact_repository.py 34–46):
`SELECT` scoped by both the contact id and the owner id. -/
def get_contact_by_id (store : List Contact) (contact_id : Nat) (user : User) :
    Option Contact :=
  store.find? (fun c => c.id == contact_id && c.user_id == user.id)

/-- `INSERT INTO contacts`: the store enforces
`UniqueConstraint("user_id", "email")` atomically; as in PostgreSQL, rows
whose email is NULL never conflict. -/
def insert_contact (store : List Contact) (c : Contact) :
    Except DBError (List Contact) :=
  if c.email.isSome &&
      store.any (fun v => v.user_id == c.user_id && v.email == c.email) then
    .error .uniqueViolation
  else .ok (store ++ [c])

/-- The row `ContactRepository.create_contact` builds from a validated body
and the authenticated owner (contact_repository.py 110–121). -/
def contact_of (newId : Nat) (user : User) (body : ContactBase) : Contact :=
  ⟨newId, user.id, body.first_name, body.last_name, some body.email,
    body.phone_number, body.birthday⟩

/-- `ContactService.create_contact` (contact_service.py 79–111): insert the
validated body as a row owned by `user`; an `IntegrityError` wrapping a
unique violation becomes a 409 naming the offending email, any other
`IntegrityError` becomes a 500. -/
def create_contact (store : List Contact) (body : ContactBase) (user : User)
    (newId : Nat) (storeFault : Bool) : Except HTTPError (Contact × List Contact) :=
  let c : Contact := contact_of newId user body
  if storeFault then
    .error ⟨500, "An unexpected database error occurred."⟩
  else
    match insert_contact store c with
    | .ok store' => .ok (c, store')
    | .error _ =>
      .error ⟨409, "Contact with email " ++ singleQuote ++ body.email ++ singleQuote ++
        " already exists for this user."⟩

/-- `ContactUpdate` (contact_schema.py 15–25) after
`model_dump(exclude_unset=True)`: for each column, `none` means the client
did not supply the field; for the nullable columns a supplied value may
itself be null. -/
structure ContactUpdate where
  first_name : Option String
  last_name : Option String
  email : Option (Option String)
  phone_number : Option (Option String)
  birthday : Option (Option PyDate)
  deriving DecidableEq

/-- The `setattr` loop of `ContactRepository.update_contact`
(contact_repository.py 135–139): only supplied fields change. -/
def apply_update (c : Contact) (body : ContactUpdate) : Contact :=
  { c with
    first_name := body.first_name.getD c.first_name
    last_name := body.last_name.getD c.last_name
    email := body.email.getD c.email
    phone_number := body.phone_number.getD c.phone_number
    birthday := body.birthday.getD c.birthday }

/-- `ContactRepository.update_contact` (contact_repository.py 123–145):
fetch the row scoped by (id, owner); when found, apply the supplied fields
and commit — the commit re-checks `UniqueConstraint("user_id", "email")`
against every other row and raises a unique violation on collision. -/
def repo_update_contact (store : List Contact) (contact_id : Nat)
    (body : ContactUpdate) (user : User) :
    Except DBError (Option Contact × List Contact) :=
  match get_contact_by_id store contact_id user with
  | none => .ok (none, store)
  | some c =>
    let c' := apply_update c body
    if c'.email.isSome && store.any (fun v =>
        v.id != c.id && v.user_id == c'.user_id && v.email == c'.email) then
      .error .uniqueViolation
    else
      .ok (some c', store.map (fun v => if v.id == c.id then c' else v))

/-- `ContactService.update_contact` (contact_service.py 113–127): a pure
pass-through — unlike `create_contact` it catches no `IntegrityError`, so a
store failure leaves the service uncaught. -/
def service_update_contact (store : List Contact) (contact_id : Nat)
    (body : ContactUpdate) (user : User) :
    Except ServiceFailure (Option Contact × List Contact) :=
  match repo_update_contact store contact_id body user with
  | .error e => .error (.uncaughtStore e)
  | .ok r => .ok r

/-- `ContactRepository.delete_contact` (contact_repository.py 147–159):
fetch the row scoped by (id, owner); when found, delete it by primary key. -/
def repo_delete_contact (store : List Contact) (contact_id : Nat) (user : User) :
    Option Contact × List Contact :=
  match get_contact_by_id store contact_id user with
  | none => (none, store)
  | some c => (some c, store.eraseP (fun v => v.id == c.id))

/-- The 404 the contact router raises when the service reports no contact. -/
def contactNotFound : HTTPError := ⟨404, "Contact not found"⟩

/-- `GET /contacts/{contact_id}` (contact_router.py 47–62). -/
def get_contact_endpoint (store : List Contact) (contact_id : Nat) (user : User) :
    Except HTTPError Contact :=
  match get_contact_by_id store contact_id user with
  | none => .error contactNotFound
  | some c => .ok c

/-- `PATCH /contacts/{contact_id}` (contact_router.py 83–99). -/
def update_contact_endpoint (store : List Contact) (contact_id : Nat)
    (body : ContactUpdate) (user : User) :
    Except ServiceFailure Contact × List Contact :=
  match service_update_contact store contact_id body user with
  | .error e => (.error e, store)
  | .ok (none, store') => (.error (.http contactNotFound), store')
  | .ok (some c, store') => (.ok c, store')

/-- `DELETE /contacts/{contact_id}` (contact_router.py 102–114). -/
def delete_contact_endpoint (store : List Contact) (contact_id : Nat) (user : User) :
    Except HTTPError Contact × List Contact :=
  match repo_delete_contact store contact_id user with
  | (none, store') => (.error contactNotFound, store')
  | (some c, store') => (.ok c, store')

/-- A Redis entry: key, the cached (pickled) user snapshot, and the TTL in
seconds set by the most recent `expire`. -/
structure CacheEntry where
  key : String
  value : User
  ttl : Nat
  deriving DecidableEq

/-- The state `get_current_user` and `login_user` act on: the durable
`users` table and the Redis cache. -/
structure AuthState where
  users : List User
  cache : List CacheEntry
  deriving DecidableEq

/-- `redis.get`: the cached value under a key, when present. -/
def cache_get (cache : List CacheEntry) (key : String) : Option User :=
  (cache.find? (fun e => e.key == key)).map (fun e => e.value)

/-- `redis.set` followed by `redis.expire`: (re)bind the key with a TTL. -/
def cache_set (cache : List CacheEntry) (key : String) (u : User) (ttl : Nat) :
    List CacheEntry :=
  ⟨key, u, ttl⟩ :: cache.filter (fun e => e.key != key)

/-- One observable access to the cache or the durable store, recorded in
the order the code performs it. -/
inductive Effect where
  | cacheGet (key : String)
  | dbRead (email : String)
  | cacheSet (key : String) (ttlSeconds : Nat)
  deriving DecidableEq

/-- `get_current_user` (auth_service.py 313–379): decode the access token,
then resolve the identity cache-aside — consult `user:<email>` first,
fall back to the store on a miss, repopulate the cache with a 15-minute
TTL on a store hit, and raise the generic 401 when the store has no such
user. Returns the outcome, the new state, and the trace of cache/store
accesses after a successful decode. -/
def get_current_user (st : AuthState) (token : Token) (now : Nat) :
    Except HTTPError User × AuthState × List Effect :=
  match decode_access_token token now with
  | .error e => (.error e, st, [])
  | .ok email =>
    let key := "user:" ++ email
    match cache_get st.cache key with
    | some u => (.ok u, st, [.cacheGet key])
    | none =>
      match get_user_by_email st.users email with
      | none => (.error credentialsError, st, [.cacheGet key, .dbRead email])
      | some u =>
        (.ok u, { st with cache := cache_set st.cache key u (60 * 15) },
          [.cacheGet key, .dbRead email, .cacheSet key (60 * 15)])

/-- The 401 login raises for an unknown identifier or a wrong password. -/
def incorrectCredentials : HTTPError := ⟨401, "Incorrect email or password"⟩

/-- The 401 login raises for a correct password on an unverified account. -/
def emailNotVerified : HTTPError := ⟨401, "Email not verified"⟩

/-- `AuthService.login_user` (auth_service.py 187–243), the password
scheme's verify routine abstracted as `verify`: resolve the identifier by
email when it contains `@`, else by username; a missing user or a failed
password check raise one identical 401; an unverified account raises a
distinct 401; on success cache the user snapshot for 15 minutes and issue
an access and a refresh token for the user's email. -/
def login_user (verify : String → String → Bool) (st : AuthState)
    (identifier password : String) (now accessExp refreshExp : Nat) :
    Except HTTPError (Token × Token) × AuthState :=
  let user? :=
    if identifier.data.contains '@' then get_user_by_email st.users identifier
    else get_user_by_username st.users identifier
  match user? with
  | none => (.error incorrectCredentials, st)
  | some u =>
    if !verify password u.hashed_password then
      (.error incorrectCredentials, st)
    else if !u.verified then
      (.error emailNotVerified, st)
    else
      (.ok (⟨"access_token", some u.email, now + accessExp, true⟩,
            ⟨"refresh_token", some u.email, now + refreshExp, true⟩),
        { st with cache := cache_set st.cache ("user:" ++ u.email) u (60 * 15) })

/-- Python's leap-year rule (`calendar.isleap`). -/
def isLeapYear (y : Nat) : Bool :=
  (y % 4 == 0 && y % 100 != 0) || y % 400 == 0

/-- Days in a month of the Gregorian calendar. -/
def daysInMonth (y m : Nat) : Nat :=
  if m == 2 then (if isLeapYear y then 29 else 28)
  else if m == 4 || m == 6 || m == 9 || m == 11 then 30
  else 31

/-- The calendar successor of a date. -/
def nextDay (d : PyDate) : PyDate :=
  if d.day < daysInMonth d.year d.month then ⟨d.year, d.month, d.day + 1⟩
  else if d.month < 12 then ⟨d.year, d.month + 1, 1⟩
  else ⟨d.year + 1, 1, 1⟩

/-- `today + datetime.timedelta(days=n)`. -/
def addDays (d : PyDate) : Nat → PyDate
  | 0 => d
  | n + 1 => nextDay (addDays d n)

/-- The `(month, day)` tuples of `[today + i for i in range(7)]` built by
`get_upcoming_birthdays` (contact_repository.py 95–98). -/
def birthday_tuples (today : PyDate) : List (Nat × Nat) :=
  (List.range 7).map (fun i => ((addDays today i).month, (addDays today i).day))

/-- `ContactRepository.get_upcoming_birthdays` (contact_repository.py
86–107): the caller's contacts whose birthday's `(extract(month),
extract(day))` is among the seven window tuples. -/
def get_upcoming_birthdays (store : List Contact) (user : User) (today : PyDate) :
    List Contact :=
  store.filter (fun c =>
    c.user_id == user.id &&
    (match c.birthday with
     | some b => (birthday_tuples today).contains (b.month, b.day)
     | none => false))



/-! Helper lemmas shared by the claim theorems. -/

theorem decode_password_reset_token_ok (t : Token) (now : Nat) (email : String)
    (hsig : t.sigOk = true) (hexp : now < t.exp)
    (hscope : t.scope = "password_reset") (hsub : t.sub = some email) :
    decode_password_reset_token t now = .ok email := by
  simp [decode_password_reset_token, jwtDecode, hsig, hexp, hscope, hsub]

theorem decode_access_token_ok (t : Token) (now : Nat) (email : String)
    (hsig : t.sigOk = true) (hexp : now < t.exp)
    (hscope : t.scope = "access_token") (hsub : t.sub = some email) :
    decode_access_token t now = .ok email := by
  simp [decode_access_token, jwtDecode, hsig, hexp, hscope, hsub]

theorem get_user_by_email_replace (db : List User) (email : String) (u' : User)
    (hmail : u'.email = email)
    (hfound : (get_user_by_email db email).isSome = true) :
    get_user_by_email (replace_user_by_email db email u') email = some u' := by
  induction db with
  | nil => simp [get_user_by_email] at hfound
  | cons v rest ih =>
    by_cases hv : v.email = email
    · simp [replace_user_by_email, get_user_by_email, hv, hmail]
    · have hv' : (v.email == email) = false := by simp [hv]
      have hrest : (get_user_by_email rest email).isSome = true := by
        simpa [get_user_by_email, List.find?_cons, hv'] using hfound
      have hih := ih hrest
      simpa [replace_user_by_email, get_user_by_email, hv', List.find?_cons]
        using hih

theorem mem_replace_user (db : List User) (email : String) (u' v : User)
    (hv : v ∈ db) (hne : v.email ≠ email) :
    v ∈ replace_user_by_email db email u' := by
  induction db with
  | nil => simp at hv
  | cons w rest ih =>
    rcases List.mem_cons.mp hv with h | h
    · subst h
      have hw : (v.email == email) = false := by simp [hne]
      simp [replace_user_by_email, hw]
    · by_cases hw : (w.email == email) = true
      · simp [replace_user_by_email, hw, List.mem_cons, h]
      · simp only [replace_user_by_email, hw, if_false]
        exact List.mem_cons.mpr (Or.inr (ih h))

/-- C1: for every reset-password request whose token decodes with scope
`password_reset` to the email of an existing user, the endpoint hashes the
supplied new password and persists it, replacing that user's stored hash
(other users' rows are preserved); when the subject resolves to no user,
the endpoint fails with 404 Not Found and the store is unchanged. -/
theorem C1_reset_password (hash : String → String) (db : List User)
    (email newPassword : String) (t : Token) (now : Nat)
    (hsig : t.sigOk = true) (hexp : now < t.exp)
    (hscope : t.scope = "password_reset") (hsub : t.sub = some email) :
    (∀ u, get_user_by_email db email = some u →
      (reset_password_endpoint hash db t newPassword now).1 =
        .ok "Your password has been reset successfully." ∧
      get_user_by_email (reset_password_endpoint hash db t newPassword now).2 email =
        some { u with hashed_password := hash newPassword } ∧
      (∀ v ∈ db, v.email ≠ email →
        v ∈ (reset_password_endpoint hash db t newPassword now).2)) ∧
    (get_user_by_email db email = none →
      reset_password_endpoint hash db t newPassword now =
        (.error ⟨404, "User not found"⟩, db)) := by
  have hdec := decode_password_reset_token_ok t now email hsig hexp hscope hsub
  constructor
  · intro u hu
    have humail : u.email = email := by
      have := List.find?_some hu
      simpa using this
    refine ⟨?_, ?_, ?_⟩
    · simp [reset_password_endpoint, hdec, userService_reset_password,
        update_password, hu]
    · have hfound : (get_user_by_email db email).isSome = true := by
        simp [hu]
      have := get_user_by_email_replace db email
        { u with hashed_password := hash newPassword } (by simpa using humail) hfound
      simpa [reset_password_endpoint, hdec, userService_reset_password,
        update_password, hu] using this
    · intro v hv hvne
      have := mem_replace_user db email
        { u with hashed_password := hash newPassword } v hv hvne
      simpa [reset_password_endpoint, hdec, userService_reset_password,
        update_password, hu] using this
  · intro hu
    simp [reset_password_endpoint, hdec, userService_reset_password,
      update_password, hu]

/-- C1 witness: a concrete reset against a one-user store replaces the
stored hash, and a reset whose subject matches no user answers 404. -/
theorem C1_reset_password_witness :
    (reset_password_endpoint (fun p => p ++ "#h")
        [⟨1, "alice", "a@x", "oldhash", none, true, .user⟩]
        ⟨"password_reset", some "a@x", 10, true⟩ "npw" 0).1 =
      .ok "Your password has been reset successfully." ∧
    get_user_by_email (reset_password_endpoint (fun p => p ++ "#h")
        [⟨1, "alice", "a@x", "oldhash", none, true, .user⟩]
        ⟨"password_reset", some "a@x", 10, true⟩ "npw" 0).2 "a@x" =
      some ⟨1, "alice", "a@x", "npw#h", none, true, .user⟩ ∧
    reset_password_endpoint (fun p => p ++ "#h")
        [⟨1, "alice", "a@x", "oldhash", none, true, .user⟩]
        ⟨"password_reset", some "ghost@x", 10, true⟩ "npw" 0 =
      (.error ⟨404, "User not found"⟩,
        [⟨1, "alice", "a@x", "oldhash", none, true, .user⟩]) := by
  have h1 := C1_reset_password (fun p => p ++ "#h")
    [⟨1, "alice", "a@x", "oldhash", none, true, .user⟩]
    "a@x" "npw" ⟨"password_reset", some "a@x", 10, true⟩ 0
    rfl (by decide) rfl rfl
  have h2 := C1_reset_password (fun p => p ++ "#h")
    [⟨1, "alice", "a@x", "oldhash", none, true, .user⟩]
    "ghost@x" "npw" ⟨"password_reset", some "ghost@x", 10, true⟩ 0
    rfl (by decide) rfl rfl
  have ha := h1.1 ⟨1, "alice", "a@x", "oldhash", none, true, .user⟩ (by decide)
  exact ⟨ha.1, ha.2.1, h2.2 (by decide)⟩

/-- C2 counterexample: on the access-token decode path of
`get_current_user`, a well-signed, unexpired token issued with scope
`refresh_token` fails with exactly the same error value — the generic 401
`credentials_exception` — as a token whose signature does not verify, so
the scope-mismatch failure is not distinguishable from the invalid-
signature/expired failure there, contrary to the claim. -/
theorem C2_scope_counterexample :
    decode_access_token ⟨"refresh_token", some "x@y", 100, true⟩ 0 =
      .error credentialsError ∧
    decode_access_token ⟨"access_token", some "x@y", 100, false⟩ 0 =
      .error credentialsError ∧
    decode_access_token ⟨"refresh_token", some "x@y", 100, true⟩ 0 =
      decode_access_token ⟨"access_token", some "x@y", 100, false⟩ 0 := by
  exact ⟨rfl, rfl, rfl⟩

/-- C2 amended: every decoder rejects a well-signed, unexpired token whose
issued scope differs from the decoder's expected scope, regardless of the
remaining time-to-live; for the dedicated refresh, email-verification and
password-reset decoders that scope-mismatch error (`Invalid scope for
token`, 401) is distinguishable from every error those decoders produce on
an invalid signature or an expired token, while the access-token path of
`get_current_user` reports the same generic 401 for both conditions. -/
theorem C2_scope_mismatch_amended (t : Token) (now : Nat)
    (hsig : t.sigOk = true) (hexp : now < t.exp) :
    ((t.scope ≠ "refresh_token" →
        decode_refresh_token t now = .error invalidScopeError) ∧
     (t.scope ≠ "email_verification" →
        decode_email_token t now = .error invalidScopeError) ∧
     (t.scope ≠ "password_reset" →
        decode_password_reset_token t now = .error invalidScopeError) ∧
     (t.scope ≠ "access_token" →
        decode_access_token t now = .error credentialsError)) ∧
    (∀ (t' : Token) (now' : Nat), jwtDecode t' now' = none →
      decode_refresh_token t' now' ≠ .error invalidScopeError ∧
      decode_email_token t' now' ≠ .error invalidScopeError ∧
      decode_password_reset_token t' now' ≠ .error invalidScopeError) := by
  constructor
  · refine ⟨?_, ?_, ?_, ?_⟩
    · intro hs
      simp [decode_refresh_token, jwtDecode, hsig, hexp, hs]
    · intro hs
      simp [decode_email_token, jwtDecode, hsig, hexp, hs]
    · intro hs
      simp [decode_password_reset_token, jwtDecode, hsig, hexp, hs]
    · intro hs
      simp [decode_access_token, jwtDecode, hsig, hexp, hs]
  · intro t' now' hbad
    refine ⟨?_, ?_, ?_⟩
    · simp [decode_refresh_token, hbad, credentialsError, invalidScopeError]
    · simp [decode_email_token, hbad, invalidScopeError]
    · simp [decode_password_reset_token, hbad, invalidScopeError]

/-- C2 witness: a concrete unexpired token with scope `refresh_token` is
rejected with the scope-mismatch 401 by the email-verification decoder,
and a concrete expired token is not rejected with that error. -/
theorem C2_scope_mismatch_amended_witness :
    decode_email_token ⟨"refresh_token", some "x@y", 100, true⟩ 0 =
      .error invalidScopeError ∧
    decode_refresh_token ⟨"refresh_token", some "x@y", 100, true⟩ 200 ≠
      .error invalidScopeError := by
  have h := C2_scope_mismatch_amended ⟨"refresh_token", some "x@y", 100, true⟩ 0
    rfl (by decide)
  exact ⟨h.1.2.1 (by decide),
    (h.2 ⟨"refresh_token", some "x@y", 100, true⟩ 200 (by decide)).1⟩

/-- C3: identity resolution from a valid access token is cache-aside. On a
cache hit for `user:<email>` the cached user is returned with no
durable-store read and no state change; on a cache miss the store is read
by email, and a found user is written back into the cache with the
15-minute TTL before being returned; when the store has no user for the
email, resolution fails with the 401 `credentials_exception`. -/
theorem C3_cache_aside (st : AuthState) (t : Token) (now : Nat) (email : String)
    (hsig : t.sigOk = true) (hexp : now < t.exp)
    (hscope : t.scope = "access_token") (hsub : t.sub = some email) :
    (∀ u, cache_get st.cache ("user:" ++ email) = some u →
      get_current_user st t now = (.ok u, st, [.cacheGet ("user:" ++ email)])) ∧
    (cache_get st.cache ("user:" ++ email) = none →
      get_user_by_email st.users email = none →
      get_current_user st t now =
        (.error credentialsError, st,
          [.cacheGet ("user:" ++ email), .dbRead email])) ∧
    (∀ u, cache_get st.cache ("user:" ++ email) = none →
      get_user_by_email st.users email = some u →
      get_current_user st t now =
        (.ok u, { st with cache := cache_set st.cache ("user:" ++ email) u (60 * 15) },
          [.cacheGet ("user:" ++ email), .dbRead email,
           .cacheSet ("user:" ++ email) (60 * 15)])) := by
  have hdec := decode_access_token_ok t now email hsig hexp hscope hsub
  refine ⟨?_, ?_, ?_⟩
  · intro u hc
    simp [get_current_user, hdec, hc]
  · intro hc hdb
    simp [get_current_user, hdec, hc, hdb]
  · intro u hc hdb
    simp [get_current_user, hdec, hc, hdb]

/-- C3 witness: with a concrete state, a cache hit returns the cached
snapshot without touching the store, and a cache miss on a present user
repopulates the cache entry with the 900-second TTL. -/
theorem C3_cache_aside_witness :
    get_current_user
        ⟨[⟨1, "alice", "a@x", "H", none, true, .user⟩],
         [⟨"user:a@x", ⟨1, "alice", "a@x", "Hcached", none, true, .user⟩, 900⟩]⟩
        ⟨"access_token", some "a@x", 10, true⟩ 0 =
      (.ok ⟨1, "alice", "a@x", "Hcached", none, true, .user⟩,
        ⟨[⟨1, "alice", "a@x", "H", none, true, .user⟩],
         [⟨"user:a@x", ⟨1, "alice", "a@x", "Hcached", none, true, .user⟩, 900⟩]⟩,
        [.cacheGet "user:a@x"]) ∧
    get_current_user ⟨[⟨1, "alice", "a@x", "H", none, true, .user⟩], []⟩
        ⟨"access_token", some "a@x", 10, true⟩ 0 =
      (.ok ⟨1, "alice", "a@x", "H", none, true, .user⟩,
        ⟨[⟨1, "alice", "a@x", "H", none, true, .user⟩],
         [⟨"user:a@x", ⟨1, "alice", "a@x", "H", none, true, .user⟩, 60 * 15⟩]⟩,
        [.cacheGet "user:a@x", .dbRead "a@x", .cacheSet "user:a@x" (60 * 15)]) ∧
    get_current_user ⟨[], []⟩ ⟨"access_token", some "a@x", 10, true⟩ 0 =
      (.error credentialsError, ⟨[], []⟩,
        [.cacheGet "user:a@x", .dbRead "a@x"]) := by
  have hhit := C3_cache_aside
    ⟨[⟨1, "alice", "a@x", "H", none, true, .user⟩],
     [⟨"user:a@x", ⟨1, "alice", "a@x", "Hcached", none, true, .user⟩, 900⟩]⟩
    ⟨"access_token", some "a@x", 10, true⟩ 0 "a@x" rfl (by decide) rfl rfl
  have hmiss := C3_cache_aside
    ⟨[⟨1, "alice", "a@x", "H", none, true, .user⟩], []⟩
    ⟨"access_token", some "a@x", 10, true⟩ 0 "a@x" rfl (by decide) rfl rfl
  have hnone := C3_cache_aside ⟨[], []⟩
    ⟨"access_token", some "a@x", 10, true⟩ 0 "a@x" rfl (by decide) rfl rfl
  refine ⟨hhit.1 _ (by decide), ?_, hnone.2.1 (by decide) (by decide)⟩
  have := hmiss.2.2 ⟨1, "alice", "a@x", "H", none, true, .user⟩ (by decide) (by decide)
  simpa [cache_set] using this

/-- C4: on a store with no conflicting rows, a contact creation with a
given email succeeds for one owner, a second creation with the same email
by a different owner also succeeds, while a second creation with the same
email by the same owner fails with a 409 Conflict whose detail names the
offending email. -/
theorem C4_contact_email_unique_per_owner (s0 : List Contact) (u1 u2 : User)
    (b1 b2 : ContactBase) (id1 id2 : Nat)
    (howner : u1.id ≠ u2.id) (hemail : b2.email = b1.email)
    (h1 : s0.any (fun c => c.user_id == u1.id && c.email == some b1.email) = false)
    (h2 : s0.any (fun c => c.user_id == u2.id && c.email == some b1.email) = false) :
    create_contact s0 b1 u1 id1 false =
      .ok (contact_of id1 u1 b1, s0 ++ [contact_of id1 u1 b1]) ∧
    create_contact (s0 ++ [contact_of id1 u1 b1]) b2 u2 id2 false =
      .ok (contact_of id2 u2 b2,
        (s0 ++ [contact_of id1 u1 b1]) ++ [contact_of id2 u2 b2]) ∧
    (∀ b : ContactBase, b.email = b1.email →
      create_contact (s0 ++ [contact_of id1 u1 b1]) b u1 id2 false =
        .error ⟨409, "Contact with email " ++ singleQuote ++ b.email ++
          singleQuote ++ " already exists for this user."⟩) := by
  have hne : (u1.id == u2.id) = false := by simp [howner]
  refine ⟨?_, ?_, ?_⟩
  · simp [create_contact, insert_contact, contact_of, h1]
  · simp [create_contact, insert_contact, contact_of, List.any_append,
      hemail, h2, hne]
  · intro b hb
    simp [create_contact, insert_contact, contact_of, List.any_append, hb]

/-- C4 witness: concrete creations on an empty store — same email, owners
1 and 2 both succeed; a second creation with the same email by owner 1 is
rejected with the 409 naming `dup@x`. -/
theorem C4_contact_email_unique_per_owner_witness :
    create_contact [] ⟨"A", "B", "dup@x", none, none⟩
        ⟨1, "alice", "a@x", "H", none, true, .user⟩ 1 false =
      .ok (⟨1, 1, "A", "B", some "dup@x", none, none⟩,
        [⟨1, 1, "A", "B", some "dup@x", none, none⟩]) ∧
    create_contact [⟨1, 1, "A", "B", some "dup@x", none, none⟩]
        ⟨"C", "D", "dup@x", none, none⟩
        ⟨2, "bob", "b@x", "H", none, true, .user⟩ 2 false =
      .ok (⟨2, 2, "C", "D", some "dup@x", none, none⟩,
        [⟨1, 1, "A", "B", some "dup@x", none, none⟩,
         ⟨2, 2, "C", "D", some "dup@x", none, none⟩]) ∧
    create_contact [⟨1, 1, "A", "B", some "dup@x", none, none⟩]
        ⟨"E", "F", "dup@x", none, none⟩
        ⟨1, "alice", "a@x", "H", none, true, .user⟩ 2 false =
      .error ⟨409, "Contact with email " ++ singleQuote ++ "dup@x" ++
        singleQuote ++ " already exists for this user."⟩ := by
  have h := C4_contact_email_unique_per_owner []
    ⟨1, "alice", "a@x", "H", none, true, .user⟩
    ⟨2, "bob", "b@x", "H", none, true, .user⟩
    ⟨"A", "B", "dup@x", none, none⟩ ⟨"C", "D", "dup@x", none, none⟩ 1 2
    (by decide) rfl rfl rfl
  exact ⟨h.1, h.2.1, h.2.2 ⟨"E", "F", "dup@x", none, none⟩ rfl⟩

theorem find?_append_of_none {α : Type} (p : α → Bool) (l1 l2 : List α)
    (h : l1.find? p = none) : (l1 ++ l2).find? p = l2.find? p := by
  induction l1 with
  | nil => rfl
  | cons x rest ih =>
    cases hx : p x with
    | false =>
      simp only [List.cons_append, List.find?_cons, hx] at h ⊢
      exact ih h
    | true =>
      simp only [List.find?_cons, hx] at h
      exact absurd h (by simp)

/-- C5: with a fresh email, a signup succeeds and persists the new
unverified user; a concurrent signup with the same email whose pre-check
read the old store state hits the store's uniqueness constraint at insert
and is mapped to a 409 Conflict — the same `Conflict` status the pre-insert
existence check reports on the committed store — so exactly one of the two
signups succeeds; a store failure at insert that is not a uniqueness
violation propagates uncaught and surfaces as 500. -/
theorem C5_signup_race (hash : String → String) (a1 a2 : Option String)
    (db0 : List User) (b1 b2 : UserCreate) (id1 id2 : Nat)
    (hemail : b2.email = b1.email)
    (hfresh : db0.any
      (fun v => v.email == b1.email || v.username == b1.username) = false) :
    create_user hash a1 id1 db0 b1 false =
      .ok (⟨id1, b1.username, b1.email, hash b1.password, a1, false, .user⟩,
        db0 ++ [⟨id1, b1.username, b1.email, hash b1.password, a1, false, .user⟩]) ∧
    create_user_raced hash a2 id2 db0
        (db0 ++ [⟨id1, b1.username, b1.email, hash b1.password, a1, false, .user⟩])
        b2 false =
      .error (.http ⟨409, "User with this email already exists (race condition)."⟩) ∧
    (∃ e, create_user_precheck
        (db0 ++ [⟨id1, b1.username, b1.email, hash b1.password, a1, false, .user⟩])
        b2 = some e ∧ e.status = 409) ∧
    failureStatus
      (.http ⟨409, "User with this email already exists (race condition)."⟩) = 409 ∧
    (∀ (db : List User) (b : UserCreate), create_user_precheck db b = none →
      create_user hash a1 id1 db b true = .error (.uncaughtStore .otherFailure) ∧
      failureStatus (.uncaughtStore .otherFailure) = 500) := by
  have hmem := List.any_eq_false.mp hfresh
  have hno : get_user_by_email db0 b1.email = none := by
    rw [get_user_by_email, List.find?_eq_none]
    intro v hv
    have := hmem v hv
    simp only [Bool.or_eq_true, not_or] at this
    simpa using this.1
  refine ⟨?_, ?_, ?_, rfl, ?_⟩
  · simp [create_user, create_user_raced, create_user_precheck, hno,
      create_user_insert, insert_user, hfresh]
  · simp [create_user_raced, create_user_precheck, hemail, hno,
      create_user_insert, insert_user, List.any_append]
  · refine ⟨⟨409, "User with this email already exists."⟩, ?_, rfl⟩
    rw [create_user_precheck, get_user_by_email, hemail,
      find?_append_of_none _ db0 _ hno]
    simp
  · intro db b hpre
    refine ⟨?_, rfl⟩
    simp [create_user, create_user_raced, hpre, create_user_insert, insert_user]

/-- C5 witness: two concrete signups with email `race@example.com` against
an empty store — the first succeeds, the raced second receives the 409; a
non-uniqueness store fault at insert surfaces as the uncaught store error. -/
theorem C5_signup_race_witness :
    create_user (fun p => p ++ "#h") none 1 [] ⟨"alice", "race@example.com", "pw1"⟩
        false =
      .ok (⟨1, "alice", "race@example.com", "pw1#h", none, false, .user⟩,
        [⟨1, "alice", "race@example.com", "pw1#h", none, false, .user⟩]) ∧
    create_user_raced (fun p => p ++ "#h") none 2 []
        [⟨1, "alice", "race@example.com", "pw1#h", none, false, .user⟩]
        ⟨"bob", "race@example.com", "pw2"⟩ false =
      .error (.http ⟨409, "User with this email already exists (race condition)."⟩) ∧
    create_user (fun p => p ++ "#h") none 1 [] ⟨"alice", "race@example.com", "pw1"⟩
        true =
      .error (.uncaughtStore .otherFailure) := by
  have h := C5_signup_race (fun p => p ++ "#h") none none []
    ⟨"alice", "race@example.com", "pw1"⟩ ⟨"bob", "race@example.com", "pw2"⟩ 1 2
    rfl rfl
  exact ⟨h.1, h.2.1,
    (h.2.2.2.2 [] ⟨"alice", "race@example.com", "pw1"⟩ rfl).1⟩

/-- C6: login with an unknown identifier and login with a known identifier
but a failing password check produce the very same 401 error value
("Incorrect email or password"), indistinguishable to the caller; login
with a passing password check for an account whose `verified` flag is
false fails with the distinct 401 detail "Email not verified", which
differs from the invalid-credentials message. -/
theorem C6_login_enumeration_resistant (verify : String → String → Bool)
    (st : AuthState) (ident pwd : String) (now aExp rExp : Nat) :
    ((if ident.data.contains '@' then get_user_by_email st.users ident
      else get_user_by_username st.users ident) = none →
        login_user verify st ident pwd now aExp rExp =
          (.error incorrectCredentials, st)) ∧
    (∀ u, (if ident.data.contains '@' then get_user_by_email st.users ident
      else get_user_by_username st.users ident) = some u →
        verify pwd u.hashed_password = false →
        login_user verify st ident pwd now aExp rExp =
          (.error incorrectCredentials, st)) ∧
    (∀ u, (if ident.data.contains '@' then get_user_by_email st.users ident
      else get_user_by_username st.users ident) = some u →
        verify pwd u.hashed_password = true → u.verified = false →
        login_user verify st ident pwd now aExp rExp =
          (.error emailNotVerified, st) ∧
        emailNotVerified ≠ incorrectCredentials ∧
        emailNotVerified.status = 401 ∧ incorrectCredentials.status = 401) := by
  refine ⟨?_, ?_, ?_⟩
  · intro hnone
    by_cases hc : '@' ∈ ident.data
    · rw [if_pos (by simpa using hc)] at hnone
      simp [login_user, hc, hnone]
    · rw [if_neg (by simpa using hc)] at hnone
      simp [login_user, hc, hnone]
  · intro u hu hv
    by_cases hc : '@' ∈ ident.data
    · rw [if_pos (by simpa using hc)] at hu
      simp [login_user, hc, hu, hv]
    · rw [if_neg (by simpa using hc)] at hu
      simp [login_user, hc, hu, hv]
  · intro u hu hv hver
    refine ⟨?_, by decide, rfl, rfl⟩
    by_cases hc : '@' ∈ ident.data
    · rw [if_pos (by simpa using hc)] at hu
      simp [login_user, hc, hu, hv, hver]
    · rw [if_neg (by simpa using hc)] at hu
      simp [login_user, hc, hu, hv, hver]

/-- C6 witness: with a one-user store holding unverified bob, an unknown
email and a wrong password for bob yield the identical 401, and the
correct password yields the distinct "Email not verified" 401. -/
theorem C6_login_enumeration_resistant_witness :
    login_user (fun p h => h == p ++ "#h")
        ⟨[⟨1, "bob", "bob@example.com", "pw#h", none, false, .user⟩], []⟩
        "ghost@example.com" "pw" 0 10 20 =
      (.error incorrectCredentials,
        ⟨[⟨1, "bob", "bob@example.com", "pw#h", none, false, .user⟩], []⟩) ∧
    login_user (fun p h => h == p ++ "#h")
        ⟨[⟨1, "bob", "bob@example.com", "pw#h", none, false, .user⟩], []⟩
        "bob@example.com" "wrong" 0 10 20 =
      (.error incorrectCredentials,
        ⟨[⟨1, "bob", "bob@example.com", "pw#h", none, false, .user⟩], []⟩) ∧
    login_user (fun p h => h == p ++ "#h")
        ⟨[⟨1, "bob", "bob@example.com", "pw#h", none, false, .user⟩], []⟩
        "bob@example.com" "pw" 0 10 20 =
      (.error emailNotVerified,
        ⟨[⟨1, "bob", "bob@example.com", "pw#h", none, false, .user⟩], []⟩) ∧
    emailNotVerified ≠ incorrectCredentials := by
  have h1 := C6_login_enumeration_resistant (fun p h => h == p ++ "#h")
    ⟨[⟨1, "bob", "bob@example.com", "pw#h", none, false, .user⟩], []⟩
    "ghost@example.com" "pw" 0 10 20
  have h2 := C6_login_enumeration_resistant (fun p h => h == p ++ "#h")
    ⟨[⟨1, "bob", "bob@example.com", "pw#h", none, false, .user⟩], []⟩
    "bob@example.com" "wrong" 0 10 20
  have h3 := C6_login_enumeration_resistant (fun p h => h == p ++ "#h")
    ⟨[⟨1, "bob", "bob@example.com", "pw#h", none, false, .user⟩], []⟩
    "bob@example.com" "pw" 0 10 20
  have hb := h3.2.2 ⟨1, "bob", "bob@example.com", "pw#h", none, false, .user⟩
    (by decide) (by decide) rfl
  exact ⟨h1.1 (by decide),
    h2.2.1 ⟨1, "bob", "bob@example.com", "pw#h", none, false, .user⟩
      (by decide) (by decide),
    hb.1, hb.2.1⟩

/-- C7: for an authenticated caller, get, update and delete on a contact id
that the owner-scoped query does not resolve — because no contact with
that id exists or because it belongs to a different user — all answer the
identical 404 "Contact not found" (never a 403), making the two cases
indistinguishable; the owner-scoped query resolves nothing precisely when
every store row fails the id check or the ownership check. -/
theorem C7_nonowned_is_notfound (store : List Contact) (cid : Nat) (user : User)
    (body : ContactUpdate)
    (h : ∀ c ∈ store, c.id ≠ cid ∨ c.user_id ≠ user.id) :
    get_contact_by_id store cid user = none ∧
    get_contact_endpoint store cid user = .error contactNotFound ∧
    update_contact_endpoint store cid body user =
      (.error (.http contactNotFound), store) ∧
    delete_contact_endpoint store cid user = (.error contactNotFound, store) ∧
    contactNotFound.status = 404 ∧ contactNotFound.status ≠ 403 := by
  have hnone : get_contact_by_id store cid user = none := by
    rw [get_contact_by_id, List.find?_eq_none]
    intro c hc
    rcases h c hc with hid | hown
    · simp [hid]
    · simp [hown]
  refine ⟨hnone, ?_, ?_, ?_, rfl, by decide⟩
  · simp [get_contact_endpoint, hnone]
  · simp [update_contact_endpoint, service_update_contact,
      repo_update_contact, hnone]
  · simp [delete_contact_endpoint, repo_delete_contact, hnone]

/-- C7 witness: contact 5 exists but belongs to user 2; user 1's get,
update and delete all answer the identical 404. -/
theorem C7_nonowned_is_notfound_witness :
    get_contact_endpoint [⟨5, 2, "A", "B", some "a@x", none, none⟩] 5
        ⟨1, "alice", "al@x", "H", none, true, .user⟩ =
      .error contactNotFound ∧
    update_contact_endpoint [⟨5, 2, "A", "B", some "a@x", none, none⟩] 5
        ⟨none, none, none, none, none⟩
        ⟨1, "alice", "al@x", "H", none, true, .user⟩ =
      (.error (.http contactNotFound), [⟨5, 2, "A", "B", some "a@x", none, none⟩]) ∧
    delete_contact_endpoint [⟨5, 2, "A", "B", some "a@x", none, none⟩] 5
        ⟨1, "alice", "al@x", "H", none, true, .user⟩ =
      (.error contactNotFound, [⟨5, 2, "A", "B", some "a@x", none, none⟩]) ∧
    get_contact_endpoint ([] : List Contact) 5
        ⟨1, "alice", "al@x", "H", none, true, .user⟩ =
      .error contactNotFound := by
  have howned := C7_nonowned_is_notfound
    [⟨5, 2, "A", "B", some "a@x", none, none⟩] 5
    ⟨1, "alice", "al@x", "H", none, true, .user⟩
    ⟨none, none, none, none, none⟩ (by decide)
  have habsent := C7_nonowned_is_notfound ([] : List Contact) 5
    ⟨1, "alice", "al@x", "H", none, true, .user⟩
    ⟨none, none, none, none, none⟩ (by simp)
  exact ⟨howned.2.1, howned.2.2.1, howned.2.2.2.1, habsent.2.1⟩

theorem addDays_zero (t : PyDate) : addDays t 0 = t := rfl

theorem addDays_one (t : PyDate) : addDays t 1 = nextDay t := rfl

theorem addDays_two (t : PyDate) : addDays t 2 = nextDay (addDays t 1) := rfl

theorem addDays_three (t : PyDate) : addDays t 3 = nextDay (addDays t 2) := rfl

theorem addDays_four (t : PyDate) : addDays t 4 = nextDay (addDays t 3) := rfl

theorem addDays_five (t : PyDate) : addDays t 5 = nextDay (addDays t 4) := rfl

theorem addDays_six (t : PyDate) : addDays t 6 = nextDay (addDays t 5) := rfl

theorem nextDay_dec (y d : Nat) (h : d < 31) :
    nextDay ⟨y, 12, d⟩ = ⟨y, 12, d + 1⟩ := by
  simp [nextDay, daysInMonth, isLeapYear, h]

theorem nextDay_dec31 (y : Nat) : nextDay ⟨y, 12, 31⟩ = ⟨y + 1, 1, 1⟩ := by
  simp [nextDay, daysInMonth, isLeapYear]

theorem nextDay_jan (y d : Nat) (h : d < 31) :
    nextDay ⟨y, 1, d⟩ = ⟨y, 1, d + 1⟩ := by
  simp [nextDay, daysInMonth, isLeapYear, h]

theorem range_seven : List.range 7 = [0, 1, 2, 3, 4, 5, 6] := by decide

/-- C8 counterexample: an owned contact with birthday Dec 30 is NOT
returned when today is Jan 2 (window Jan 2 – Jan 8) nor when today is
Dec 31 (window Dec 31 – Jan 6), although both days lie in the claim's
"Dec 27 through Jan 2 inclusive" range — the code's window is
today + 0 .. today + 6, so a Dec 30 birthday is matched only from
Dec 24 through Dec 30. -/
theorem C8_window_counterexample :
    get_upcoming_birthdays [⟨1, 1, "A", "B", none, none, some ⟨1990, 12, 30⟩⟩]
      ⟨1, "alice", "a@x", "H", none, true, .user⟩ ⟨2026, 1, 2⟩ = [] ∧
    get_upcoming_birthdays [⟨1, 1, "A", "B", none, none, some ⟨1990, 12, 30⟩⟩]
      ⟨1, "alice", "a@x", "H", none, true, .user⟩ ⟨2025, 12, 31⟩ = [] := by
  decide

/-- C8 amended: the query returns exactly the caller's contacts whose
birthday's (month, day) falls in the seven tuples of today + 0 .. today + 6,
matched on calendar month/day only; windows crossing a year boundary are
handled (a window starting Dec 27 contains Jan 1), and a contact with
birthday Dec 30 is included whenever today is any of Dec 24 through Dec 30
inclusive, in any year — not Dec 27 through Jan 2. -/
theorem C8_upcoming_birthdays_amended (store : List Contact) (user : User)
    (today : PyDate) (c : Contact) :
    (c ∈ get_upcoming_birthdays store user today ↔
      c ∈ store ∧ c.user_id = user.id ∧
      ∃ b, c.birthday = some b ∧ (b.month, b.day) ∈ birthday_tuples today) ∧
    (∀ y d : Nat, 24 ≤ d → d ≤ 30 → (12, 30) ∈ birthday_tuples ⟨y, 12, d⟩) ∧
    (∀ y : Nat, (1, 1) ∈ birthday_tuples ⟨y, 12, 27⟩) ∧
    (∀ y : Nat, (12, 30) ∉ birthday_tuples ⟨y, 12, 31⟩) ∧
    (∀ y : Nat, (12, 30) ∉ birthday_tuples ⟨y, 1, 2⟩) := by
  refine ⟨?_, ?_, ?_, ?_, ?_⟩
  · rw [get_upcoming_birthdays, List.mem_filter]
    cases hb : c.birthday with
    | none => simp [hb]
    | some b => simp [hb, and_assoc]
  · intro y d h1 h2
    interval_cases d <;>
      (rw [birthday_tuples, range_seven]
       simp only [List.map_cons, List.map_nil, addDays_six, addDays_five,
         addDays_four, addDays_three, addDays_two, addDays_one, addDays_zero]
       simp [nextDay_dec, nextDay_dec31, nextDay_jan])
  · intro y
    rw [birthday_tuples, range_seven]
    simp only [List.map_cons, List.map_nil, addDays_six, addDays_five,
      addDays_four, addDays_three, addDays_two, addDays_one, addDays_zero]
    simp [nextDay_dec, nextDay_dec31, nextDay_jan]
  · intro y
    rw [birthday_tuples, range_seven]
    simp only [List.map_cons, List.map_nil, addDays_six, addDays_five,
      addDays_four, addDays_three, addDays_two, addDays_one, addDays_zero]
    simp [nextDay_dec, nextDay_dec31, nextDay_jan]
  · intro y
    rw [birthday_tuples, range_seven]
    simp only [List.map_cons, List.map_nil, addDays_six, addDays_five,
      addDays_four, addDays_three, addDays_two, addDays_one, addDays_zero]
    simp [nextDay_dec, nextDay_dec31, nextDay_jan]

/-- C8 witness: a contact with birthday Dec 30 is returned when today is
Dec 24, 2025 (and the tuple (12, 30) lies in that window), while the
window of Dec 27 of any year contains Jan 1. -/
theorem C8_upcoming_birthdays_amended_witness :
    ⟨1, 1, "A", "B", none, none, some ⟨1990, 12, 30⟩⟩ ∈
      get_upcoming_birthdays [⟨1, 1, "A", "B", none, none, some ⟨1990, 12, 30⟩⟩]
        ⟨1, "alice", "a@x", "H", none, true, .user⟩ ⟨2025, 12, 24⟩ ∧
    (12, 30) ∈ birthday_tuples ⟨2025, 12, 24⟩ ∧
    (1, 1) ∈ birthday_tuples ⟨2025, 12, 27⟩ ∧
    (12, 30) ∉ birthday_tuples ⟨2026, 1, 2⟩ := by
  have h := C8_upcoming_birthdays_amended
    [⟨1, 1, "A", "B", none, none, some ⟨1990, 12, 30⟩⟩]
    ⟨1, "alice", "a@x", "H", none, true, .user⟩ ⟨2025, 12, 24⟩
    ⟨1, 1, "A", "B", none, none, some ⟨1990, 12, 30⟩⟩
  have hmem := h.2.1 2025 24 (by decide) (by decide)
  exact ⟨h.1.mpr ⟨by decide, rfl, ⟨1990, 12, 30⟩, rfl, hmem⟩,
    hmem, h.2.2.1 2025, h.2.2.2.2 2026⟩

/-- C9 counterexample: the create-contact schema `ContactBase` declares
`email: EmailStr` with no default, so a request that supplies first_name
and last_name but omits email is rejected by validation with a
missing-field error — it is not accepted, contrary to the claim. -/
theorem C9_email_required_counterexample :
    validateContactBase (fun _ => true)
      ⟨some "Ada", some "Lovelace", none, none, none⟩ =
      .error (.missingField "email") := by
  decide

/-- C9 amended: the contact email is optional only in the storage model —
the `contacts.email` column is nullable and bounded to 60 characters — but
the creation schema requires email, so every create-contact request that
omits email fails validation (whatever the email syntax check). -/
theorem C9_email_schema_amended (emailOk : String → Bool)
    (raw : RawContactInput) (hne : raw.email = none) :
    (∀ vr : ContactBase, validateContactBase emailOk raw ≠ .ok vr) ∧
    (∀ (idv uid : Nat) (fn ln : String) (bd : Option PyDate),
      fn.length ≤ 50 → ln.length ≤ 50 →
      contact_row_ok ⟨idv, uid, fn, ln, none, none, bd⟩ = true) ∧
    (∀ (c : Contact) (e : String), contact_row_ok c = true → c.email = some e →
      e.length ≤ 60) := by
  refine ⟨?_, ?_, ?_⟩
  · intro vr
    cases hf : raw.first_name with
    | none => simp [validateContactBase, hf]
    | some fn =>
      by_cases hl : fn.length > 50
      · simp [validateContactBase, hf, hl]
      · cases hg : raw.last_name with
        | none => simp [validateContactBase, hf, hl, hg]
        | some ln =>
          by_cases hl2 : ln.length > 50
          · simp [validateContactBase, hf, hl, hg, hl2]
          · simp [validateContactBase, hf, hl, hg, hl2, hne]
  · intro idv uid fn ln bd h1 h2
    simp [contact_row_ok, h1, h2]
  · intro c e hok he
    simp only [contact_row_ok, he, Bool.and_eq_true, decide_eq_true_eq] at hok
    exact hok.1.2

/-- C9 witness: the nullable email column accepts a concrete row with no
email, and a stored email drawn from a row passing the column constraints
is within 60 characters. -/
theorem C9_email_schema_amended_witness :
    contact_row_ok ⟨7, 1, "Ada", "Lovelace", none, none, none⟩ = true ∧
    ("someone@example.com".length ≤ 60) ∧
    validateContactBase (fun _ => true)
      ⟨some "Ada", some "Lovelace", none, none, none⟩ ≠
      .ok ⟨"Ada", "Lovelace", "x@y", none, none⟩ := by
  have h := C9_email_schema_amended (fun _ => true)
    ⟨some "Ada", some "Lovelace", none, none, none⟩ rfl
  exact ⟨h.2.1 7 1 "Ada" "Lovelace" none (by decide) (by decide),
    h.2.2 ⟨1, 1, "A", "B", some "someone@example.com", none, none⟩
      "someone@example.com" (by decide) rfl,
    h.1 ⟨"Ada", "Lovelace", "x@y", none, none⟩⟩

/-- C10: a partial update that sets a contact's email to a value already
used by another contact of the same owner hits the (user_id, email)
uniqueness constraint at commit, and because `update_contact` catches no
integrity error the store's violation leaves the service uncaught and
surfaces as 500, not 409 — unlike the create path, which maps the same
collision to a 409 Conflict. -/
theorem C10_update_conflict_uncaught (o : User) (c1 c2 : Contact) (e1 : String)
    (body : ContactUpdate) (nid : Nat) (b : ContactBase)
    (h1o : c1.user_id = o.id) (h2o : c2.user_id = o.id)
    (h1e : c1.email = some e1) (hne : c1.id ≠ c2.id)
    (hbe : body.email = some (some e1)) (hbe2 : b.email = e1) :
    update_contact_endpoint [c1, c2] c2.id body o =
      (.error (.uncaughtStore .uniqueViolation), [c1, c2]) ∧
    failureStatus (.uncaughtStore .uniqueViolation) = 500 ∧
    create_contact [c1, c2] b o nid false =
      .error ⟨409, "Contact with email " ++ singleQuote ++ b.email ++
        singleQuote ++ " already exists for this user."⟩ := by
  have hfind : get_contact_by_id [c1, c2] c2.id o = some c2 := by
    simp [get_contact_by_id, List.find?_cons, hne, h2o]
  have hm1 : (apply_update c2 body).email = some e1 := by
    simp [apply_update, hbe]
  have hm2 : (apply_update c2 body).user_id = c2.user_id := by
    simp [apply_update]
  refine ⟨?_, rfl, ?_⟩
  · simp [update_contact_endpoint, service_update_contact, repo_update_contact,
      hfind, hm1, hm2, hne, h1o, h2o, h1e]
  · simp [create_contact, insert_contact, contact_of, hbe2, h1o, h1e]

/-- C10 witness: with owner 1 holding contacts 1 (`a@x`) and 2 (`b@x`),
patching contact 2's email to `a@x` surfaces the uncaught store violation
with status 500, while creating a third contact with email `a@x`
receives the 409. -/
theorem C10_update_conflict_uncaught_witness :
    update_contact_endpoint
        [⟨1, 1, "A", "B", some "a@x", none, none⟩,
         ⟨2, 1, "C", "D", some "b@x", none, none⟩] 2
        ⟨none, none, some (some "a@x"), none, none⟩
        ⟨1, "alice", "al@x", "H", none, true, .user⟩ =
      (.error (.uncaughtStore .uniqueViolation),
        [⟨1, 1, "A", "B", some "a@x", none, none⟩,
         ⟨2, 1, "C", "D", some "b@x", none, none⟩]) ∧
    failureStatus (.uncaughtStore .uniqueViolation) = 500 ∧
    create_contact
        [⟨1, 1, "A", "B", some "a@x", none, none⟩,
         ⟨2, 1, "C", "D", some "b@x", none, none⟩]
        ⟨"E", "F", "a@x", none, none⟩
        ⟨1, "alice", "al@x", "H", none, true, .user⟩ 3 false =
      .error ⟨409, "Contact with email " ++ singleQuote ++ "a@x" ++
        singleQuote ++ " already exists for this user."⟩ := by
  exact C10_update_conflict_uncaught
    ⟨1, "alice", "al@x", "H", none, true, .user⟩
    ⟨1, 1, "A", "B", some "a@x", none, none⟩
    ⟨2, 1, "C", "D", some "b@x", none, none⟩ "a@x"
    ⟨none, none, some (some "a@x"), none, none⟩ 3 ⟨"E", "F", "a@x", none, none⟩
    rfl rfl rfl (by decide) rfl rfl
